import Mathlib

/-!
Verification of the SpectroscopicAnalysis peak-finding pipeline.

The development shallowly embeds the numeric core of the repository:
the intensity normaliser and Fano fitter of `src/analysis.py` and
`src/chris.py`, the region selector `trimindices` of `src/userinput.py`,
and the skip-existing-artifact loop of the batch drivers.  Machine floats
are modelled by exact rationals; the scipy least-squares solver and the
square root are abstracted as parameters, since they are external library
calls; the interactive rectangle selector is an external collaborator that
delivers two wavelength bounds, which the embedding takes as arguments.
-/

namespace SpectroAnalysis

/-- Embedding of `numpy.argmin` on a list: the first index holding the
minimal value.  `numpy` raises on an empty array; the embedding returns 0
there and is only ever used under a nonemptiness hypothesis. -/
def argminList : List ℚ → Nat
  | [] => 0
  | [_] => 0
  | x :: y :: ys =>
    let j := argminList (y :: ys)
    if x ≤ (y :: ys).getD j 0 then 0 else j + 1

/-- Embedding of `numpy.argmax` on a list: the first index holding the
maximal value, as used for the initial-guess peak seed. -/
def argmaxList : List ℚ → Nat
  | [] => 0
  | [_] => 0
  | x :: y :: ys =>
    let j := argmaxList (y :: ys)
    if (y :: ys).getD j 0 ≤ x then 0 else j + 1

/-- Embedding of the Python builtin `max` over a nonempty list (Python
raises on an empty list; the embedding returns 0 there and is only used
under a nonemptiness hypothesis). -/
def maxList : List ℚ → ℚ
  | [] => 0
  | x :: xs => xs.foldl max x

theorem argminList_lt_length : ∀ l : List ℚ, l ≠ [] → argminList l < l.length
  | [], h => absurd rfl h
  | [_], _ => Nat.zero_lt_one
  | x :: y :: ys, _ => by
    have ih := argminList_lt_length (y :: ys) (by simp)
    simp only [argminList]
    split
    · simp
    · simpa using Nat.succ_lt_succ ih

theorem argmaxList_lt_length : ∀ l : List ℚ, l ≠ [] → argmaxList l < l.length
  | [], h => absurd rfl h
  | [_], _ => Nat.zero_lt_one
  | x :: y :: ys, _ => by
    have ih := argmaxList_lt_length (y :: ys) (by simp)
    simp only [argmaxList]
    split
    · simp
    · simpa using Nat.succ_lt_succ ih

theorem argminList_le :
    ∀ (l : List ℚ) (k : Nat), k < l.length →
      l.getD (argminList l) 0 ≤ l.getD k 0
  | [], k, hk => by simp at hk
  | [x], k, hk => by
    have hk0 : k = 0 := by simpa using Nat.lt_one_iff.mp (by simpa using hk)
    subst hk0
    simp [argminList]
  | x :: y :: ys, k, hk => by
    have ih := fun k hk => argminList_le (y :: ys) k hk
    simp only [argminList]
    split
    · rename_i h
      match k with
      | 0 => simp
      | k + 1 =>
        have hk' : k < (y :: ys).length := by simpa using Nat.lt_of_succ_lt_succ hk
        calc x ≤ (y :: ys).getD (argminList (y :: ys)) 0 := h
          _ ≤ (y :: ys).getD k 0 := ih k hk'
    · rename_i h
      match k with
      | 0 =>
        simpa using le_of_lt (lt_of_not_le h)
      | k + 1 =>
        have hk' : k < (y :: ys).length := by simpa using Nat.lt_of_succ_lt_succ hk
        simpa using ih k hk'

theorem argmaxList_ge :
    ∀ (l : List ℚ) (k : Nat), k < l.length →
      l.getD k 0 ≤ l.getD (argmaxList l) 0
  | [], k, hk => by simp at hk
  | [x], k, hk => by
    have hk0 : k = 0 := by simpa using Nat.lt_one_iff.mp (by simpa using hk)
    subst hk0
    simp [argmaxList]
  | x :: y :: ys, k, hk => by
    have ih := fun k hk => argmaxList_ge (y :: ys) k hk
    simp only [argmaxList]
    split
    · rename_i h
      match k with
      | 0 => simp
      | k + 1 =>
        have hk' : k < (y :: ys).length := by simpa using Nat.lt_of_succ_lt_succ hk
        calc (y :: ys).getD k 0 ≤ (y :: ys).getD (argmaxList (y :: ys)) 0 := ih k hk'
          _ ≤ x := h
    · rename_i h
      match k with
      | 0 =>
        simpa using le_of_lt (lt_of_not_le h)
      | k + 1 =>
        have hk' : k < (y :: ys).length := by simpa using Nat.lt_of_succ_lt_succ hk
        simpa using ih k hk'

theorem le_foldl_max (xs : List ℚ) (a : ℚ) : a ≤ xs.foldl max a := by
  induction xs generalizing a with
  | nil => exact le_refl a
  | cons x xs ih => exact le_trans (le_max_left a x) (ih (max a x))

theorem mem_le_foldl_max (xs : List ℚ) (a b : ℚ) (hb : b ∈ xs) :
    b ≤ xs.foldl max a := by
  induction xs generalizing a with
  | nil => simp at hb
  | cons x xs ih =>
    rcases List.mem_cons.mp hb with h | h
    · subst h
      exact le_trans (le_max_right a b) (le_foldl_max xs (max a b))
    · exact ih (max a x) h

theorem foldl_max_mem (xs : List ℚ) (a : ℚ) :
    xs.foldl max a = a ∨ xs.foldl max a ∈ xs := by
  induction xs generalizing a with
  | nil => exact Or.inl rfl
  | cons x xs ih =>
    rcases ih (max a x) with h | h
    · rcases max_choice a x with hm | hm
      · exact Or.inl (by rw [List.foldl_cons, h, hm])
      · exact Or.inr (by rw [List.foldl_cons, h, hm]; exact List.mem_cons_self x xs)
    · exact Or.inr (List.mem_cons_of_mem x h)

theorem maxList_mem (l : List ℚ) (h : l ≠ []) : maxList l ∈ l := by
  match l with
  | x :: xs =>
    rcases foldl_max_mem xs x with h' | h'
    · rw [maxList, h']; exact List.mem_cons_self x xs
    · exact List.mem_cons_of_mem x h'

theorem le_maxList (l : List ℚ) (b : ℚ) (hb : b ∈ l) : b ≤ maxList l := by
  match l with
  | x :: xs =>
    rcases List.mem_cons.mp hb with h | h
    · subst h; exact le_foldl_max xs b
    · exact mem_le_foldl_max xs x b h

/-- Outcome of a `scipy.optimize.curve_fit` call: either the optimal
parameter vector together with the covariance matrix, or the
`RuntimeError` the solver raises when it fails to converge. -/
inductive SolverOutcome where
  | ok (popt : List ℚ) (pcov : List (List ℚ))
  | runtimeError
deriving DecidableEq

/-- Abstraction of the scipy least-squares solver: it receives the
wavelength window, the intensity window and the initial-guess vector
(the model function is fixed per call site). -/
def Solver : Type := List ℚ → List ℚ → List ℚ → SolverOutcome

/-- Embedding of `numpy.diag` on the covariance matrix returned by the
solver: entry k is row k, column k. -/
def diag (m : List (List ℚ)) : List ℚ :=
  (List.range m.length).map fun k => (m.getD k []).getD k 0

/-- The dictionary returned by `get_fano_parameters`: the fitted
parameter vector (`popt`) and the standard-error vector derived from the
covariance diagonal. -/
structure FanoParameters where
  fit : List ℚ
  errors : List ℚ
deriving DecidableEq

/-- The dictionary returned by `get_peak_wavelength`: the extracted peak
wavelength and peak error. -/
structure PeakResult where
  peakWavelength : ℚ
  peakError : ℚ
deriving DecidableEq

namespace analysis

/-- `src/src/analysis.py::timecorrected_intensity`, line 49:
`intensity = [raw / integration_time for raw in raw_intensity]`.
The function performs no validation of `integration_time`. -/
def timecorrected_intensity (raw_intensity : List ℚ)
    (integration_time : ℚ) : List ℚ :=
  raw_intensity.map fun raw => raw / integration_time

/-- `src/src/analysis.py::normalise_intensity`, lines 90-94:
divide every sample by `max(raw_intensity)`.  No zero-max validation is
performed by the source. -/
def normalise_intensity (raw_intensity : List ℚ) : List ℚ :=
  let max_intensity := maxList raw_intensity
  raw_intensity.map fun intensity => intensity / max_intensity

/-- `src/src/analysis.py::fano_resonance`, lines 158-162. -/
def fano_resonance (x x0 gamma q amplitude damping : ℚ) : ℚ :=
  let omega := 2 * ((x - x0) / gamma)
  let numerator := ((q + omega) ^ 2) + damping
  let denominator := 1 + (omega ^ 2)
  amplitude * (numerator / denominator)

/-- `src/src/analysis.py::get_fano_parameters`, line 229:
`initial_guesses = [wavelength[np.argmax(intensity)], 10, 5, 0.6, 1]`. -/
def initial_guesses (wavelength intensity : List ℚ) : List ℚ :=
  [wavelength.getD (argmaxList intensity) 0, 10, 5, 3/5, 1]

/-- `src/src/analysis.py::get_fano_parameters`, lines 232-246 and 266-268:
call the solver with the initial guesses; on success take
`errors = np.sqrt(np.diag(pcov))`, on `RuntimeError` substitute
`popt = [0, 0, 0, 0, 0]` and `errors = [0, 0, 0, 0, 0]`.  `sq` abstracts
`np.sqrt`. -/
def get_fano_parameters (sq : ℚ → ℚ) (curve_fit : Solver)
    (wavelength intensity : List ℚ) : FanoParameters :=
  match curve_fit wavelength intensity (initial_guesses wavelength intensity) with
  | .ok popt pcov => { fit := popt, errors := (diag pcov).map sq }
  | .runtimeError => { fit := [0, 0, 0, 0, 0], errors := [0, 0, 0, 0, 0] }

/-- `src/src/analysis.py::get_fano_parameters`, lines 244-246: the peak
wavelength and peak error computed inside the fitter and passed to the
diagnostic plot are `popt[0]` and `errors[0]`. -/
def peak_for_plot (p : FanoParameters) : ℚ × ℚ :=
  (p.fit.getD 0 0, p.errors.getD 0 0)

/-- `src/src/analysis.py::get_peak_wavelength`, lines 308-312:
`peak_wavelength = fit[0]`, `peak_error = errors[1]`. -/
def get_peak_wavelength (fano_parameters : FanoParameters) : PeakResult :=
  { peakWavelength := fano_parameters.fit.getD 0 0,
    peakError := fano_parameters.errors.getD 1 0 }

end analysis

namespace chris

/-- `src/src/chris.py::fano_resonance`, lines 58-65: the alternative
Lorentzian-like lineshape with parameters (amp, assym, res, gamma, off);
the resonance center is `res`, index 2. -/
def fano_resonance (x amp assym res gamma off : ℚ) : ℚ :=
  let numerator := ((assym * gamma) + (x - res)) * ((assym * gamma) + (x - res))
  let denominator := (gamma * gamma) + ((x - res) * (x - res))
  (amp * (numerator / denominator)) + off

/-- `src/src/chris.py::get_fano_parameters`, lines 76-77:
`initial_peak = wavelength[np.argmax(intensity)]`,
`initial_guesses = [1, 1, initial_peak, 10, 1]`. -/
def initial_guesses (wavelength intensity : List ℚ) : List ℚ :=
  [1, 1, wavelength.getD (argmaxList intensity) 0, 10, 1]

/-- `src/src/chris.py::get_fano_parameters`, lines 81-91 and 113-114:
same solver protocol as the analysis variant (the `bounds` tuple built at
lines 78-80 is never passed to `curve_fit`). -/
def get_fano_parameters (sq : ℚ → ℚ) (curve_fit : Solver)
    (wavelength intensity : List ℚ) : FanoParameters :=
  match curve_fit wavelength intensity (initial_guesses wavelength intensity) with
  | .ok popt pcov => { fit := popt, errors := (diag pcov).map sq }
  | .runtimeError => { fit := [0, 0, 0, 0, 0], errors := [0, 0, 0, 0, 0] }

/-- `src/src/chris.py::get_fano_parameters`, lines 92-93: the peak
wavelength and peak error passed to the diagnostic plot are `popt[2]`
and `errors[2]`. -/
def peak_for_plot (p : FanoParameters) : ℚ × ℚ :=
  (p.fit.getD 2 0, p.errors.getD 2 0)

/-- `src/src/chris.py::get_peak_wavelength`, lines 132-136:
`peak_wavelength = fit[2]`, `peak_error = errors[2]`. -/
def get_peak_wavelength (fano_parameters : FanoParameters) : PeakResult :=
  { peakWavelength := fano_parameters.fit.getD 2 0,
    peakError := fano_parameters.errors.getD 2 0 }

end chris

namespace userinput

/-- `src/src/userinput.py::trimindices`, lines 250-258.  The interactive
collaborator `region_interest` delivers the two wavelength bounds
`x1`, `x2` (taken here as arguments); the function returns
`[np.argmin(np.abs(x_array - x1)), np.argmin(np.abs(x_array - x2))]`
in that order, without sorting. -/
def trimindices (x_array : List ℚ) (x1 x2 : ℚ) : Nat × Nat :=
  (argminList (x_array.map fun x => |x - x1|),
   argminList (x_array.map fun x => |x - x2|))

end userinput

namespace driver

/-- State of the batch drivers: the result artifacts present on disk
(keyed by their output-file name) and the log of inputs for which the
normalisation/region-selection/fit pipeline has been invoked. -/
structure DriverState (R : Type) where
  artifact : String → Option R
  fitted : List String

/-- One iteration of the `__main__` loop of `src/spectrum_peakfinder.py`
(lines 157-172) and `src/batch_peakfinder.py` (lines 99-114): if the
result artifact for the input already exists, `pass`; otherwise run the
pipeline and save its result under the artifact key. -/
def process_file {R : Type} (pipeline : String → R) (keyOf : String → String)
    (s : DriverState R) (file : String) : DriverState R :=
  if (s.artifact (keyOf file)).isSome then s
  else
    { artifact := fun k => if k = keyOf file then some (pipeline file) else s.artifact k,
      fitted := s.fitted ++ [file] }

/-- The full batch loop: fold `process_file` over the input files. -/
def run_batch {R : Type} (pipeline : String → R) (keyOf : String → String)
    (s : DriverState R) (files : List String) : DriverState R :=
  files.foldl (process_file pipeline keyOf) s

end driver

theorem getD_map (f : ℚ → ℚ) (l : List ℚ) (k : Nat) (hk : k < l.length) :
    (l.map f).getD k 0 = f (l.getD k 0) := by
  rw [List.getD_eq_getElem _ _ (by simpa using hk), List.getD_eq_getElem _ _ hk,
    List.getElem_map]

theorem diag_length (m : List (List ℚ)) : (diag m).length = m.length := by
  simp [diag]

/-- The index returned by the nearest-wavelength search is in range and its
wavelength has minimal absolute difference to the bound. -/
theorem nearest_index_spec (xs : List ℚ) (b : ℚ) (h : xs ≠ []) :
    argminList (xs.map fun x => |x - b|) < xs.length
    ∧ ∀ k, k < xs.length →
        |xs.getD (argminList (xs.map fun x => |x - b|)) 0 - b| ≤ |xs.getD k 0 - b| := by
  have hm : (xs.map fun x => |x - b|) ≠ [] := by simpa using h
  have hlen : (xs.map fun x => |x - b|).length = xs.length := by simp
  have ha : argminList (xs.map fun x => |x - b|) < xs.length :=
    hlen ▸ argminList_lt_length _ hm
  refine ⟨ha, fun k hk => ?_⟩
  have h1 := argminList_le (xs.map fun x => |x - b|) k (by simpa [hlen] using hk)
  rwa [getD_map _ _ _ ha, getD_map _ _ _ hk] at h1

/-- Entries of a strictly increasing list are injective in their index. -/
theorem getD_inj_of_pairwise (xs : List ℚ) (hs : xs.Pairwise (· < ·))
    (a b : Nat) (ha : a < xs.length) (hb : b < xs.length)
    (hab : xs.getD a 0 = xs.getD b 0) : a = b := by
  rw [List.pairwise_iff_getElem] at hs
  rw [List.getD_eq_getElem _ _ ha, List.getD_eq_getElem _ _ hb] at hab
  rcases Nat.lt_trichotomy a b with h | h | h
  · exact absurd hab (ne_of_lt (hs a b ha hb h))
  · exact h
  · exact absurd hab.symm (ne_of_lt (hs b a hb ha h))

/-- For a strictly increasing list, the nearest index to the value stored at
index i is i itself. -/
theorem nearest_index_self (xs : List ℚ) (hs : xs.Pairwise (· < ·))
    (i : Nat) (hi : i < xs.length) :
    argminList (xs.map fun x => |x - xs.getD i 0|) = i := by
  have hne : xs ≠ [] := by
    intro he
    rw [he] at hi
    simp at hi
  obtain ⟨ha, hmin⟩ := nearest_index_spec xs (xs.getD i 0) hne
  have h0 := hmin i hi
  rw [sub_self, abs_zero] at h0
  have h1 : |xs.getD (argminList (xs.map fun x => |x - xs.getD i 0|)) 0 - xs.getD i 0| = 0 :=
    le_antisymm h0 (abs_nonneg _)
  have h2 := sub_eq_zero.mp (abs_eq_zero.mp h1)
  exact getD_inj_of_pairwise xs hs _ i ha hi h2

/-- Shape facts shared by the success path of both fitter variants. -/
theorem success_shape (sq : ℚ → ℚ) (hsq : ∀ x : ℚ, 0 ≤ x → 0 ≤ sq x)
    (popt : List ℚ) (pcov : List (List ℚ))
    (h1 : popt.length = 5) (h2 : pcov.length = 5)
    (h3 : ∀ e ∈ diag pcov, 0 ≤ e) :
    popt.length = 5 ∧ ((diag pcov).map sq).length = 5
    ∧ ∀ e ∈ (diag pcov).map sq, 0 ≤ e := by
  refine ⟨h1, by simp [diag_length, h2], fun e he => ?_⟩
  obtain ⟨d, hd, hde⟩ := List.mem_map.mp he
  exact hde ▸ hsq d (h3 d hd)

/-- Claim C1: evaluation of the code at a concrete fano-parameters record.
In `src/src/analysis.py` the peak wavelength is taken from fit index 0 but
the peak error from error index 1, so the two are NOT parameter-matched:
on the record below the returned peak error is 3/2 (the linewidth error)
while the error co-indexed with the center parameter — the value the same
file uses for its own plot annotation at lines 244-246 — is 1/2.  The
`chris.py` variant is parameter-matched (index 2 for both). -/
theorem claim_c1_peak_error_mismatch :
    (analysis.get_peak_wavelength
      ⟨[650, 8, 3, 4/5, 1/10], [1/2, 3/2, 5/2, 7/2, 9/2]⟩).peakWavelength = 650
    ∧ (analysis.get_peak_wavelength
      ⟨[650, 8, 3, 4/5, 1/10], [1/2, 3/2, 5/2, 7/2, 9/2]⟩).peakError = 3/2
    ∧ (analysis.peak_for_plot
      ⟨[650, 8, 3, 4/5, 1/10], [1/2, 3/2, 5/2, 7/2, 9/2]⟩).2 = 1/2
    ∧ ((3 : ℚ)/2 ≠ 1/2)
    ∧ (∀ p : FanoParameters,
        (chris.get_peak_wavelength p).peakWavelength = p.fit.getD 2 0
        ∧ (chris.get_peak_wavelength p).peakError = p.errors.getD 2 0) :=
  ⟨rfl, rfl, rfl, by norm_num, fun p => ⟨rfl, rfl⟩⟩

/-- Claim C2: whenever the least-squares solver raises its runtime
(convergence) failure, both fitter variants swallow the exception and
return the all-zero parameter vector and all-zero error vector. -/
theorem claim_c2_fit_failure_recovery (sq : ℚ → ℚ) (cf : Solver)
    (w i : List ℚ)
    (ha : cf w i (analysis.initial_guesses w i) = .runtimeError)
    (hc : cf w i (chris.initial_guesses w i) = .runtimeError) :
    analysis.get_fano_parameters sq cf w i = ⟨[0, 0, 0, 0, 0], [0, 0, 0, 0, 0]⟩
    ∧ chris.get_fano_parameters sq cf w i = ⟨[0, 0, 0, 0, 0], [0, 0, 0, 0, 0]⟩ := by
  constructor
  · unfold analysis.get_fano_parameters
    rw [ha]
  · unfold chris.get_fano_parameters
    rw [hc]

/-- Witness for claim C2 at a concrete window and an always-failing solver. -/
theorem claim_c2_witness :
    analysis.get_fano_parameters id (fun _ _ _ => .runtimeError) [600, 601] [1, 2]
      = ⟨[0, 0, 0, 0, 0], [0, 0, 0, 0, 0]⟩
    ∧ chris.get_fano_parameters id (fun _ _ _ => .runtimeError) [600, 601] [1, 2]
      = ⟨[0, 0, 0, 0, 0], [0, 0, 0, 0, 0]⟩ :=
  claim_c2_fit_failure_recovery id (fun _ _ _ => .runtimeError) [600, 601] [1, 2] rfl rfl

/-- Claim C3, counterexample: on the strictly increasing wavelength array
[1, 2, 3] with supplied bounds 3 and 1 (larger bound first), the region
selector returns the index pair (2, 0), which is not ordered into
(min_index, max_index). -/
theorem claim_c3_counterexample :
    userinput.trimindices [(1 : ℚ), 2, 3] 3 1 = (2, 0)
    ∧ ¬ ((userinput.trimindices [(1 : ℚ), 2, 3] 3 1).1
          < (userinput.trimindices [(1 : ℚ), 2, 3] 3 1).2) := by
  have h1 : argminList ([(1 : ℚ), 2, 3].map fun x => |x - 3|) = 2 := by
    norm_num [argminList, abs]
  have h2 : argminList ([(1 : ℚ), 2, 3].map fun x => |x - 1|) = 0 := by
    norm_num [argminList, abs]
  have ht : userinput.trimindices [(1 : ℚ), 2, 3] 3 1 = (2, 0) := by
    show (argminList ([(1 : ℚ), 2, 3].map fun x => |x - 3|),
          argminList ([(1 : ℚ), 2, 3].map fun x => |x - 1|)) = (2, 0)
    rw [h1, h2]
  refine ⟨ht, ?_⟩
  rw [ht]
  simp

/-- Claim C3 as amended: for every nonempty wavelength array and every pair
of supplied bounds, the selector returns the pair of in-range indices whose
wavelength values have minimum absolute difference to the two bounds, in
the order the bounds were supplied; it does not reorder them. -/
theorem claim_c3_nearest_indices (xs : List ℚ) (b1 b2 : ℚ) (h : xs ≠ []) :
    (userinput.trimindices xs b1 b2).1 < xs.length
    ∧ (userinput.trimindices xs b1 b2).2 < xs.length
    ∧ (∀ k, k < xs.length →
        |xs.getD (userinput.trimindices xs b1 b2).1 0 - b1| ≤ |xs.getD k 0 - b1|)
    ∧ (∀ k, k < xs.length →
        |xs.getD (userinput.trimindices xs b1 b2).2 0 - b2| ≤ |xs.getD k 0 - b2|) := by
  obtain ⟨h1, h2⟩ := nearest_index_spec xs b1 h
  obtain ⟨h3, h4⟩ := nearest_index_spec xs b2 h
  exact ⟨h1, h3, h2, h4⟩

/-- Witness for the amended claim C3 on a concrete array and bounds. -/
theorem claim_c3_witness :
    ([(1 : ℚ), 2, 3] ≠ [])
    ∧ ((userinput.trimindices [(1 : ℚ), 2, 3] (5/2) 0).1 < ([(1 : ℚ), 2, 3]).length
      ∧ (userinput.trimindices [(1 : ℚ), 2, 3] (5/2) 0).2 < ([(1 : ℚ), 2, 3]).length
      ∧ (∀ k, k < ([(1 : ℚ), 2, 3]).length →
          |([(1 : ℚ), 2, 3]).getD (userinput.trimindices [(1 : ℚ), 2, 3] (5/2) 0).1 0 - 5/2|
            ≤ |([(1 : ℚ), 2, 3]).getD k 0 - 5/2|)
      ∧ (∀ k, k < ([(1 : ℚ), 2, 3]).length →
          |([(1 : ℚ), 2, 3]).getD (userinput.trimindices [(1 : ℚ), 2, 3] (5/2) 0).2 0 - 0|
            ≤ |([(1 : ℚ), 2, 3]).getD k 0 - 0|)) :=
  ⟨by simp, claim_c3_nearest_indices [(1 : ℚ), 2, 3] (5/2) 0 (by simp)⟩

/-- Claim C4, counterexample: the intensity array [-2, -1] has nonzero
maximum -1, yet `normalise_intensity` returns [2, 1], whose maximum is 2,
not 1; no failure occurs and no value of the output is the claimed
maximum 1. -/
theorem claim_c4_counterexample :
    maxList [(-2 : ℚ), -1] ≠ 0
    ∧ analysis.normalise_intensity [(-2 : ℚ), -1] = [2, 1]
    ∧ maxList (analysis.normalise_intensity [(-2 : ℚ), -1]) ≠ 1 := by
  refine ⟨?_, ?_, ?_⟩ <;> norm_num [analysis.normalise_intensity, maxList, max_def]

/-- Claim C4 as amended: for every nonempty intensity array whose maximum
is positive, `normalise_intensity` returns an array of the same length
whose maximum is exactly 1.  (The source performs no zero-max validation:
no typed error path exists.) -/
theorem claim_c4_normalise_max_one (raw : List ℚ) (h : raw ≠ [])
    (hM : 0 < maxList raw) :
    maxList (analysis.normalise_intensity raw) = 1
    ∧ (analysis.normalise_intensity raw).length = raw.length := by
  have hMne : maxList raw ≠ 0 := ne_of_gt hM
  have key : maxList (raw.map fun v => v / maxList raw) = 1 := by
    apply le_antisymm
    · have hmapne : raw.map (fun v => v / maxList raw) ≠ [] := by simpa using h
      obtain ⟨a, ha, hav⟩ := List.mem_map.mp (maxList_mem _ hmapne)
      rw [← hav]
      exact (div_le_one hM).mpr (le_maxList raw a ha)
    · have hself : maxList raw / maxList raw ∈ raw.map fun v => v / maxList raw :=
        List.mem_map.mpr ⟨maxList raw, maxList_mem raw h, rfl⟩
      calc (1 : ℚ) = maxList raw / maxList raw := (div_self hMne).symm
        _ ≤ _ := le_maxList _ _ hself
  exact ⟨key, by simp [analysis.normalise_intensity]⟩

/-- Witness for the amended claim C4 on a concrete positive-max array. -/
theorem claim_c4_witness :
    ([(1 : ℚ)/2, 2] ≠ []) ∧ 0 < maxList [(1 : ℚ)/2, 2]
    ∧ (maxList (analysis.normalise_intensity [(1 : ℚ)/2, 2]) = 1
      ∧ (analysis.normalise_intensity [(1 : ℚ)/2, 2]).length = ([(1 : ℚ)/2, 2]).length) :=
  ⟨by simp, by norm_num [maxList, max_def],
    claim_c4_normalise_max_one [(1 : ℚ)/2, 2] (by simp) (by norm_num [maxList, max_def])⟩

/-- Claim C5, counterexample: at the non-positive integration time -1 the
function returns the elementwise quotient [-2] — a value — instead of
failing with any InvalidParameterError. -/
theorem claim_c5_counterexample :
    analysis.timecorrected_intensity [(2 : ℚ)] (-1) = [-2]
    ∧ ((-1 : ℚ) ≤ 0) := by
  refine ⟨?_, by norm_num⟩
  norm_num [analysis.timecorrected_intensity]

/-- Claim C5 as amended: for every raw intensity array and every nonzero
integration time t (negative times included), `timecorrected_intensity`
returns exactly the elementwise quotient; the source performs no
validation of the integration time. -/
theorem claim_c5_elementwise_quotient (raw : List ℚ) (t : ℚ) (_ht : t ≠ 0) :
    (analysis.timecorrected_intensity raw t).length = raw.length
    ∧ ∀ k, k < raw.length →
        (analysis.timecorrected_intensity raw t).getD k 0 = raw.getD k 0 / t := by
  constructor
  · simp [analysis.timecorrected_intensity]
  · intro k hk
    exact getD_map (fun r => r / t) raw k hk

/-- Witness for the amended claim C5 at a concrete array and time. -/
theorem claim_c5_witness :
    ((2 : ℚ) ≠ 0)
    ∧ ((analysis.timecorrected_intensity [(3 : ℚ), 4] 2).length = ([(3 : ℚ), 4]).length
      ∧ ∀ k, k < ([(3 : ℚ), 4]).length →
          (analysis.timecorrected_intensity [(3 : ℚ), 4] 2).getD k 0
            = ([(3 : ℚ), 4]).getD k 0 / 2) :=
  ⟨by norm_num, claim_c5_elementwise_quotient [(3 : ℚ), 4] 2 (by norm_num)⟩

/-- Claim C6: for every strictly increasing wavelength array, selecting
region bounds exactly equal to `wavelength[i]` and `wavelength[j]` with
i < j yields the region-of-interest index pair (i, j) exactly. -/
theorem claim_c6_exact_bounds (xs : List ℚ) (hs : xs.Pairwise (· < ·))
    (i j : Nat) (hij : i < j) (hj : j < xs.length) :
    userinput.trimindices xs (xs.getD i 0) (xs.getD j 0) = (i, j) := by
  have hi : i < xs.length := lt_trans hij hj
  have e1 := nearest_index_self xs hs i hi
  have e2 := nearest_index_self xs hs j hj
  show (argminList (xs.map fun x => |x - xs.getD i 0|),
        argminList (xs.map fun x => |x - xs.getD j 0|)) = (i, j)
  rw [e1, e2]

/-- Witness for claim C6 on a concrete strictly increasing array. -/
theorem claim_c6_witness :
    ([(1 : ℚ), 2, 3].Pairwise (· < ·))
    ∧ userinput.trimindices [(1 : ℚ), 2, 3]
        (([(1 : ℚ), 2, 3]).getD 0 0) (([(1 : ℚ), 2, 3]).getD 2 0) = (0, 2) :=
  ⟨by norm_num, claim_c6_exact_bounds [(1 : ℚ), 2, 3] (by norm_num) 0 2
    (by norm_num) (by norm_num)⟩

/-- Claim C7, counterexample: the Fano lineshape evaluated at x = x0 with
q = 0 and damping = 0 returns 0, not the (nonzero) amplitude 4/5: the
numerator (q + omega)^2 + damping vanishes there. -/
theorem claim_c7_counterexample :
    analysis.fano_resonance 650 650 8 0 (4/5) 0 = 0
    ∧ (0 : ℚ) ≠ 4/5 := by
  refine ⟨?_, by norm_num⟩
  norm_num [analysis.fano_resonance]

/-- Claim C7 as amended: for every x0, gamma ≠ 0 and amplitude, the Fano
lineshape evaluated at x = x0 returns amplitude * (q^2 + damping); with
q = 0 and damping = 0 this is 0, and the amplitude is recovered for
instance at q = 1, damping = 0. -/
theorem claim_c7_value_at_center (x0 gamma q amplitude damping : ℚ)
    (_hg : gamma ≠ 0) :
    analysis.fano_resonance x0 x0 gamma q amplitude damping
      = amplitude * (q ^ 2 + damping) := by
  unfold analysis.fano_resonance
  rw [sub_self]
  norm_num

/-- Witness for the amended claim C7: at q = 1, damping = 0 the value at
the center is the amplitude. -/
theorem claim_c7_witness :
    ((8 : ℚ) ≠ 0)
    ∧ analysis.fano_resonance 650 650 8 1 (4/5) 0 = (4/5) * (1 ^ 2 + 0) :=
  ⟨by norm_num, claim_c7_value_at_center 650 8 1 (4/5) 0 (by norm_num)⟩

/-- Claim C8: for every non-empty intensity window (with matching
wavelength array), both fitter variants seed the resonance-center entry of
the initial-guess vector with the wavelength at the index of maximum
intensity — an in-range, data-dependent value — and fill the remaining
entries with small positive constants (10, 5, 3/5, 1 in the analysis
variant; 1, 1, 10, 1 in the chris variant). -/
theorem claim_c8_initial_guess_policy (w i : List ℚ) (h : i ≠ [])
    (hlen : i.length = w.length) :
    argmaxList i < w.length
    ∧ (∀ k, k < i.length → i.getD k 0 ≤ i.getD (argmaxList i) 0)
    ∧ analysis.initial_guesses w i = [w.getD (argmaxList i) 0, 10, 5, 3/5, 1]
    ∧ chris.initial_guesses w i = [1, 1, w.getD (argmaxList i) 0, 10, 1]
    ∧ (∀ c, c ∈ [(10 : ℚ), 5, 3/5, 1] → 0 < c)
    ∧ (∀ c, c ∈ [(1 : ℚ), 1, 10, 1] → 0 < c) := by
  refine ⟨hlen ▸ argmaxList_lt_length i h,
    fun k hk => argmaxList_ge i k hk, rfl, rfl, ?_, ?_⟩
  · intro c hc
    fin_cases hc <;> norm_num
  · intro c hc
    fin_cases hc <;> norm_num

/-- Witness for claim C8 on a concrete window: the maximum intensity sits
at index 1, so the center is seeded with wavelength 650. -/
theorem claim_c8_witness :
    ([(1 : ℚ)/2, 1, 3/4] ≠ [])
    ∧ ([(1 : ℚ)/2, 1, 3/4]).length = ([(600 : ℚ), 650, 700]).length
    ∧ (argmaxList [(1 : ℚ)/2, 1, 3/4] < ([(600 : ℚ), 650, 700]).length
      ∧ (∀ k, k < ([(1 : ℚ)/2, 1, 3/4]).length →
          ([(1 : ℚ)/2, 1, 3/4]).getD k 0
            ≤ ([(1 : ℚ)/2, 1, 3/4]).getD (argmaxList [(1 : ℚ)/2, 1, 3/4]) 0)
      ∧ analysis.initial_guesses [(600 : ℚ), 650, 700] [(1 : ℚ)/2, 1, 3/4]
          = [([(600 : ℚ), 650, 700]).getD (argmaxList [(1 : ℚ)/2, 1, 3/4]) 0, 10, 5, 3/5, 1]
      ∧ chris.initial_guesses [(600 : ℚ), 650, 700] [(1 : ℚ)/2, 1, 3/4]
          = [1, 1, ([(600 : ℚ), 650, 700]).getD (argmaxList [(1 : ℚ)/2, 1, 3/4]) 0, 10, 1]
      ∧ (∀ c, c ∈ [(10 : ℚ), 5, 3/5, 1] → 0 < c)
      ∧ (∀ c, c ∈ [(1 : ℚ), 1, 10, 1] → 0 < c)) :=
  ⟨by simp, by simp,
    claim_c8_initial_guess_policy [(600 : ℚ), 650, 700] [(1 : ℚ)/2, 1, 3/4]
      (by simp) (by simp)⟩

/-- Claim C9: if the result artifact for an input already exists, running
the batch driver over any list of inputs leaves that artifact unchanged
(neither overwritten nor removed) and never invokes the
normalisation/region-selection/fit pipeline for that input. -/
theorem claim_c9_skip_existing {R : Type} (pipeline : String → R)
    (keyOf : String → String) (s : driver.DriverState R) (f : String)
    (files : List String)
    (h : (s.artifact (keyOf f)).isSome = true) :
    (driver.run_batch pipeline keyOf s files).artifact (keyOf f)
      = s.artifact (keyOf f)
    ∧ (f ∈ (driver.run_batch pipeline keyOf s files).fitted → f ∈ s.fitted) := by
  induction files generalizing s with
  | nil => exact ⟨rfl, fun hf => hf⟩
  | cons g gs ih =>
    have hstep : driver.run_batch pipeline keyOf s (g :: gs)
        = driver.run_batch pipeline keyOf (driver.process_file pipeline keyOf s g) gs :=
      rfl
    by_cases hg : (s.artifact (keyOf g)).isSome = true
    · have heq : driver.process_file pipeline keyOf s g = s := by
        simp [driver.process_file, hg]
      rw [hstep, heq]
      exact ih s h
    · have hkey : keyOf f ≠ keyOf g := fun he => hg (he ▸ h)
      have hart : (driver.process_file pipeline keyOf s g).artifact (keyOf f)
          = s.artifact (keyOf f) := by
        simp [driver.process_file, hg, hkey]
      have hfit : (driver.process_file pipeline keyOf s g).fitted
          = s.fitted ++ [g] := by
        simp [driver.process_file, hg]
      obtain ⟨ha, hb⟩ := ih (driver.process_file pipeline keyOf s g) (by rw [hart]; exact h)
      refine ⟨by rw [hstep, ha, hart], fun hf => ?_⟩
      rw [hstep] at hf
      rcases (by simpa [hfit] using hb hf : f ∈ s.fitted ∨ f = g) with h' | h'
      · exact h'
      · exact absurd (congrArg keyOf h') hkey

/-- Witness for claim C9: a state holding an artifact for input "a"; after
running the batch over ["a", "b"] the artifact of "a" is unchanged and "a"
was not fitted. -/
theorem claim_c9_witness :
    (((driver.DriverState.mk (fun k => if k = "a" then some (1 : ℚ) else none) []).artifact
        (id "a")).isSome = true)
    ∧ ((driver.run_batch (fun _ => (0 : ℚ)) id
          ⟨fun k => if k = "a" then some (1 : ℚ) else none, []⟩ ["a", "b"]).artifact (id "a")
        = ((driver.DriverState.mk (fun k => if k = "a" then some (1 : ℚ) else none) []).artifact
            (id "a"))
      ∧ ("a" ∈ (driver.run_batch (fun _ => (0 : ℚ)) id
          ⟨fun k => if k = "a" then some (1 : ℚ) else none, []⟩ ["a", "b"]).fitted
          → "a" ∈ ([] : List String))) :=
  ⟨by simp,
    claim_c9_skip_existing (fun _ => (0 : ℚ)) id
      ⟨fun k => if k = "a" then some (1 : ℚ) else none, []⟩ "a" ["a", "b"] (by simp)⟩

/-- A concrete 5x5 identity covariance matrix used as solver output in the
claim C10 witness. -/
def idCov : List (List ℚ) :=
  [[1, 0, 0, 0, 0], [0, 1, 0, 0, 0], [0, 0, 1, 0, 0], [0, 0, 0, 1, 0], [0, 0, 0, 0, 1]]

/-- Claim C10: on both the successful-fit path and the fit-failure path,
both fitter variants return a fit vector of exactly 5 values and an error
vector of exactly 5 values, every error value non-negative.  The solver
hypotheses encode the scipy contract: on success the parameter vector has
the length of the initial guess (5) and the covariance matrix is 5x5 with
non-negative diagonal; the square-root abstraction maps non-negatives to
non-negatives. -/
theorem claim_c10_result_shape (sq : ℚ → ℚ) (cf : Solver) (w i : List ℚ)
    (hsq : ∀ x : ℚ, 0 ≤ x → 0 ≤ sq x)
    (hana : ∀ popt pcov, cf w i (analysis.initial_guesses w i) = .ok popt pcov →
        popt.length = 5 ∧ pcov.length = 5 ∧ ∀ e ∈ diag pcov, 0 ≤ e)
    (hchr : ∀ popt pcov, cf w i (chris.initial_guesses w i) = .ok popt pcov →
        popt.length = 5 ∧ pcov.length = 5 ∧ ∀ e ∈ diag pcov, 0 ≤ e) :
    ((analysis.get_fano_parameters sq cf w i).fit.length = 5
      ∧ (analysis.get_fano_parameters sq cf w i).errors.length = 5
      ∧ ∀ e ∈ (analysis.get_fano_parameters sq cf w i).errors, 0 ≤ e)
    ∧ ((chris.get_fano_parameters sq cf w i).fit.length = 5
      ∧ (chris.get_fano_parameters sq cf w i).errors.length = 5
      ∧ ∀ e ∈ (chris.get_fano_parameters sq cf w i).errors, 0 ≤ e) := by
  constructor
  · unfold analysis.get_fano_parameters
    cases hout : cf w i (analysis.initial_guesses w i) with
    | ok popt pcov =>
      obtain ⟨h1, h2, h3⟩ := hana popt pcov hout
      exact success_shape sq hsq popt pcov h1 h2 h3
    | runtimeError =>
      refine ⟨rfl, rfl, ?_⟩
      intro e he
      fin_cases he <;> norm_num
  · unfold chris.get_fano_parameters
    cases hout : cf w i (chris.initial_guesses w i) with
    | ok popt pcov =>
      obtain ⟨h1, h2, h3⟩ := hchr popt pcov hout
      exact success_shape sq hsq popt pcov h1 h2 h3
    | runtimeError =>
      refine ⟨rfl, rfl, ?_⟩
      intro e he
      fin_cases he <;> norm_num

/-- Witness for claim C10 with a solver that succeeds with a 5-parameter
vector and the identity covariance matrix. -/
theorem claim_c10_witness :
    ((analysis.get_fano_parameters id (fun _ _ _ => .ok [1, 2, 3, 4, 5] idCov)
        [600, 601] [1, 2]).fit.length = 5
      ∧ (analysis.get_fano_parameters id (fun _ _ _ => .ok [1, 2, 3, 4, 5] idCov)
          [600, 601] [1, 2]).errors.length = 5
      ∧ ∀ e ∈ (analysis.get_fano_parameters id (fun _ _ _ => .ok [1, 2, 3, 4, 5] idCov)
          [600, 601] [1, 2]).errors, 0 ≤ e)
    ∧ ((chris.get_fano_parameters id (fun _ _ _ => .ok [1, 2, 3, 4, 5] idCov)
        [600, 601] [1, 2]).fit.length = 5
      ∧ (chris.get_fano_parameters id (fun _ _ _ => .ok [1, 2, 3, 4, 5] idCov)
          [600, 601] [1, 2]).errors.length = 5
      ∧ ∀ e ∈ (chris.get_fano_parameters id (fun _ _ _ => .ok [1, 2, 3, 4, 5] idCov)
          [600, 601] [1, 2]).errors, 0 ≤ e) :=
  claim_c10_result_shape id (fun _ _ _ => .ok [1, 2, 3, 4, 5] idCov) [600, 601] [1, 2]
    (fun _ hx => hx)
    (fun popt pcov hok => by
      injection hok with e1 e2
      subst e1
      subst e2
      refine ⟨rfl, rfl, ?_⟩
      intro e he
      fin_cases he <;> norm_num [idCov, diag])
    (fun popt pcov hok => by
      injection hok with e1 e2
      subst e1
      subst e2
      refine ⟨rfl, rfl, ?_⟩
      intro e he
      fin_cases he <;> norm_num [idCov, diag])

end SpectroAnalysis
